import Mathlib

/-!
Verification of the wpdev instance/container orchestration core.

The Rust sources are shallowly embedded: Rust `HashMap` values become
association lists (`List (String × α)`, insertion order standing in for the
map's arbitrary iteration order), fallible functions return `Except`, and the
container engine (Docker daemon) plus the filesystem are modelled as an
explicit `World` state threaded through each operation, with a log of engine
calls so that call counts can be observed.
-/

namespace Wpdev

/-- Container status enum, from wpdev_core/src/lib.rs. -/
inductive ContainerStatus
  | Running
  | Stopped
  | Restarting
  | Paused
  | Exited
  | Dead
  | Unknown
  | NotFound
  | Deleted
  deriving DecidableEq, Repr

/-- Instance-level status enum, from wpdev_core/src/lib.rs. -/
inductive InstanceStatus
  | Running
  | Stopped
  | Restarting
  | Paused
  | Exited
  | Dead
  | Unknown
  | PartiallyRunning
  deriving DecidableEq, Repr

/-- Container image (role) enum, from wpdev_core/src/lib.rs. -/
inductive ContainerImage
  | Adminer
  | MySQL
  | Nginx
  | Wordpress
  | Unknown
  deriving DecidableEq, Repr

/-- ContainerImage::from_str, from wpdev_core/src/lib.rs. -/
def ContainerImage.from_str (image : String) : ContainerImage :=
  match image with
  | "adminer" => ContainerImage.Adminer
  | "mysql" => ContainerImage.MySQL
  | "nginx" => ContainerImage.Nginx
  | "wordpress" => ContainerImage.Wordpress
  | _ => ContainerImage.Unknown

/-- Lifecycle operation enum, from wpdev_core/src/lib.rs. -/
inductive ContainerOperation
  | Start
  | Stop
  | Restart
  | Delete
  | Inspect
  deriving DecidableEq, Repr

/-- Lookup in an association list, the embedding of HashMap::get. -/
def alookup {α : Type} : List (String × α) → String → Option α
  | [], _ => none
  | p :: rest, k => if p.1 = k then some p.2 else alookup rest k

/-- Insert-or-replace in an association list, the embedding of HashMap::insert
(and of Entry::or_insert when the key is vacant). -/
def aset {α : Type} : List (String × α) → String → α → List (String × α)
  | [], k, v => [(k, v)]
  | p :: rest, k, v => if p.1 = k then (k, v) :: rest else p :: aset rest k v

/-- Removal from an association list, the embedding of HashMap::remove. -/
def aremove {α : Type} : List (String × α) → String → List (String × α)
  | [], _ => []
  | p :: rest, k => if p.1 = k then aremove rest k else p :: aremove rest k

/-- InstanceContainer record, from wpdev_core/src/docker/instance.rs. -/
structure InstanceContainer where
  container_id : String
  container_image : ContainerImage
  container_status : ContainerStatus
  deriving DecidableEq, Repr

/-- Instance::get_status, from wpdev_core/src/docker/instance.rs lines 456-467.
The HashMap of containers is embedded as an association list; only its values
are consulted. -/
def Instance.get_status (containers : List (String × InstanceContainer)) : InstanceStatus :=
  match containers.all (fun c => c.2.container_status == ContainerStatus.Running),
        containers.any (fun c => c.2.container_status == ContainerStatus.Running) with
  | true, _ => InstanceStatus.Running
  | false, true => InstanceStatus.PartiallyRunning
  | false, false => InstanceStatus.Stopped

/-- determine_instance_status, from wpdev_core/src/docker_service.rs lines 550-559. -/
def determine_instance_status (container_statuses : List (String × ContainerStatus)) : InstanceStatus :=
  match container_statuses.all (fun p => p.2 == ContainerStatus.Running),
        container_statuses.any (fun p => p.2 == ContainerStatus.Running) with
  | true, _ => InstanceStatus.Running
  | false, true => InstanceStatus.PartiallyRunning
  | false, false => InstanceStatus.Stopped

section StatusAggregation

lemma determine_all_running (l : List (String × ContainerStatus))
    (h : ∀ p ∈ l, p.2 = ContainerStatus.Running) :
    determine_instance_status l = InstanceStatus.Running := by
  have hall : l.all (fun p => p.2 == ContainerStatus.Running) = true := by
    simp only [List.all_eq_true, beq_iff_eq]
    exact h
  unfold determine_instance_status
  rw [hall]

lemma determine_none_running (l : List (String × ContainerStatus)) (hl : l ≠ [])
    (h : ∀ p ∈ l, p.2 ≠ ContainerStatus.Running) :
    determine_instance_status l = InstanceStatus.Stopped := by
  obtain ⟨x, hx⟩ := List.exists_mem_of_ne_nil l hl
  have hall : l.all (fun p => p.2 == ContainerStatus.Running) = false := by
    cases hb : l.all (fun p => p.2 == ContainerStatus.Running) with
    | false => rfl
    | true =>
      exfalso
      have := List.all_eq_true.mp hb x hx
      exact h x hx (by simpa using this)
  have hany : l.any (fun p => p.2 == ContainerStatus.Running) = false := by
    cases hb : l.any (fun p => p.2 == ContainerStatus.Running) with
    | false => rfl
    | true =>
      exfalso
      obtain ⟨y, hy, hyr⟩ := List.any_eq_true.mp hb
      exact h y hy (by simpa using hyr)
  unfold determine_instance_status
  rw [hall, hany]

lemma determine_some_running (l : List (String × ContainerStatus))
    (h1 : ∃ p ∈ l, p.2 = ContainerStatus.Running)
    (h2 : ∃ p ∈ l, p.2 ≠ ContainerStatus.Running) :
    determine_instance_status l = InstanceStatus.PartiallyRunning := by
  obtain ⟨x, hx, hxr⟩ := h1
  obtain ⟨y, hy, hyn⟩ := h2
  have hall : l.all (fun p => p.2 == ContainerStatus.Running) = false := by
    cases hb : l.all (fun p => p.2 == ContainerStatus.Running) with
    | false => rfl
    | true =>
      exfalso
      have := List.all_eq_true.mp hb y hy
      exact hyn (by simpa using this)
  have hany : l.any (fun p => p.2 == ContainerStatus.Running) = true := by
    refine List.any_eq_true.mpr ⟨x, hx, by simpa using hxr⟩
  unfold determine_instance_status
  rw [hall, hany]

lemma map_all_comp (m : List (String × InstanceContainer)) :
    (List.map (fun p : String × InstanceContainer => (p.1, p.2.container_status)) m).all
        (fun p => p.2 == ContainerStatus.Running) =
      m.all (fun c => c.2.container_status == ContainerStatus.Running) := by
  induction m with
  | nil => rfl
  | cons q rest ih => simp [List.all_cons, ih]

lemma map_any_comp (m : List (String × InstanceContainer)) :
    (List.map (fun p : String × InstanceContainer => (p.1, p.2.container_status)) m).any
        (fun p => p.2 == ContainerStatus.Running) =
      m.any (fun c => c.2.container_status == ContainerStatus.Running) := by
  induction m with
  | nil => rfl
  | cons q rest ih => simp [List.any_cons, ih]

/-- Instance::get_status agrees with determine_instance_status after projecting
each member container to its status. -/
lemma get_status_eq_determine (m : List (String × InstanceContainer)) :
    Instance.get_status m =
      determine_instance_status (m.map (fun p => (p.1, p.2.container_status))) := by
  unfold Instance.get_status determine_instance_status
  rw [map_all_comp, map_any_comp]

end StatusAggregation

/-- C1: the spec (and the claim) requires the aggregation of an empty container
collection to be Unknown, but both aggregation functions return Running for the
empty collection, since the all-pass test is vacuously true on it. This theorem
evaluates the code at the failing input. -/
theorem C1_empty_status_eval :
    determine_instance_status [] = InstanceStatus.Running ∧
    Instance.get_status [] = InstanceStatus.Running ∧
    InstanceStatus.Running ≠ InstanceStatus.Unknown :=
  ⟨rfl, rfl, by decide⟩

/-- C2: on every non-empty collection of member container statuses, both
aggregation functions return Running when every member is Running,
PartiallyRunning when at least one but not every member is Running, and Stopped
when no member is Running; any non-Running status counts toward not-all-running. -/
theorem C2_status_aggregation (l : List (String × ContainerStatus))
    (m : List (String × InstanceContainer)) (hl : l ≠ []) (hm : m ≠ []) :
    ((∀ p ∈ l, p.2 = ContainerStatus.Running) →
      determine_instance_status l = InstanceStatus.Running) ∧
    ((∃ p ∈ l, p.2 = ContainerStatus.Running) → (∃ p ∈ l, p.2 ≠ ContainerStatus.Running) →
      determine_instance_status l = InstanceStatus.PartiallyRunning) ∧
    ((∀ p ∈ l, p.2 ≠ ContainerStatus.Running) →
      determine_instance_status l = InstanceStatus.Stopped) ∧
    ((∀ p ∈ m, p.2.container_status = ContainerStatus.Running) →
      Instance.get_status m = InstanceStatus.Running) ∧
    ((∃ p ∈ m, p.2.container_status = ContainerStatus.Running) →
      (∃ p ∈ m, p.2.container_status ≠ ContainerStatus.Running) →
      Instance.get_status m = InstanceStatus.PartiallyRunning) ∧
    ((∀ p ∈ m, p.2.container_status ≠ ContainerStatus.Running) →
      Instance.get_status m = InstanceStatus.Stopped) := by
  refine ⟨fun h => determine_all_running l h,
          fun h1 h2 => determine_some_running l h1 h2,
          fun h => determine_none_running l hl h, ?_, ?_, ?_⟩
  · intro h
    rw [get_status_eq_determine]
    refine determine_all_running _ ?_
    intro p hp
    obtain ⟨q, hq, rfl⟩ := List.mem_map.mp hp
    exact h q hq
  · intro h1 h2
    rw [get_status_eq_determine]
    obtain ⟨x, hx, hxr⟩ := h1
    obtain ⟨y, hy, hyn⟩ := h2
    refine determine_some_running _
      ⟨(x.1, x.2.container_status), List.mem_map.mpr ⟨x, hx, rfl⟩, hxr⟩
      ⟨(y.1, y.2.container_status), List.mem_map.mpr ⟨y, hy, rfl⟩, hyn⟩
  · intro h
    rw [get_status_eq_determine]
    refine determine_none_running _ (by simpa using hm) ?_
    intro p hp
    obtain ⟨q, hq, rfl⟩ := List.mem_map.mp hp
    exact h q hq

/-- Witness for C2 at a concrete mixed collection. -/
theorem C2_status_aggregation_witness :
    determine_instance_status
        [("a", ContainerStatus.Running), ("b", ContainerStatus.Paused)] =
      InstanceStatus.PartiallyRunning ∧
    Instance.get_status
        [("a", ⟨"a", ContainerImage.Nginx, ContainerStatus.Running⟩),
         ("b", ⟨"b", ContainerImage.MySQL, ContainerStatus.Paused⟩)] =
      InstanceStatus.PartiallyRunning := by
  have h := C2_status_aggregation
    [("a", ContainerStatus.Running), ("b", ContainerStatus.Paused)]
    [("a", ⟨"a", ContainerImage.Nginx, ContainerStatus.Running⟩),
     ("b", ⟨"b", ContainerImage.MySQL, ContainerStatus.Paused⟩)]
    (by decide) (by simp)
  refine ⟨h.2.1 ⟨("a", ContainerStatus.Running), by simp, rfl⟩
            ⟨("b", ContainerStatus.Paused), by simp, by decide⟩, ?_⟩
  refine h.2.2.2.2.1
    ⟨("a", ⟨"a", ContainerImage.Nginx, ContainerStatus.Running⟩), by simp, rfl⟩
    ⟨("b", ⟨"b", ContainerImage.MySQL, ContainerStatus.Paused⟩), by simp, by decide⟩

/-- The insert step of merge_env_vars, the embedding of HashMap::insert on the
accumulated map: replace the value when the key is present, add the pair
otherwise. -/
def hashMapInsert (m : List (String × String)) (k v : String) : List (String × String) :=
  if m.any (fun p => p.1 == k) then
    m.map (fun p => if p.1 = k then (k, v) else p)
  else m ++ [(k, v)]

/-- The loop of merge_env_vars, from wpdev_core/src/config.rs lines 169-177:
every override pair is inserted into the map of defaults. -/
def mergedEnvMap (defaults overrides : List (String × String)) : List (String × String) :=
  overrides.foldl (fun m p => hashMapInsert m p.1 p.2) defaults

/-- merge_env_vars, from wpdev_core/src/config.rs lines 162-183: merge the
override map (when present) into the defaults, then format every pair as a
KEY=VALUE string. -/
def merge_env_vars (defaults : List (String × String))
    (overrides : Option (List (String × String))) : List String :=
  let env_vars := match overrides with
    | some o => mergedEnvMap defaults o
    | none => defaults
  env_vars.map (fun p => p.1 ++ "=" ++ p.2)

section MergeEnvVars

lemma alookup_of_any_false {m : List (String × String)} {k : String}
    (h : m.any (fun p => p.1 == k) = false) : alookup m k = none := by
  induction m with
  | nil => rfl
  | cons q rest ih =>
    rw [List.any_cons, Bool.or_eq_false_iff] at h
    have hq : ¬ q.1 = k := by simpa using h.1
    simp [alookup, hq, ih h.2]

lemma alookup_subst_self {m : List (String × String)} {k v : String}
    (h : m.any (fun p => p.1 == k) = true) :
    alookup (m.map (fun p => if p.1 = k then (k, v) else p)) k = some v := by
  induction m with
  | nil => simp at h
  | cons q rest ih =>
    rw [List.any_cons, Bool.or_eq_true] at h
    by_cases hq : q.1 = k
    · simp [alookup, hq]
    · have hr : rest.any (fun p => p.1 == k) = true := by
        rcases h with h | h
        · exact absurd (by simpa using h) hq
        · exact h
      simp [alookup, hq, ih hr]

lemma alookup_subst_other {m : List (String × String)} {k k2 v : String}
    (hne : k2 ≠ k) :
    alookup (m.map (fun p => if p.1 = k then (k, v) else p)) k2 = alookup m k2 := by
  induction m with
  | nil => rfl
  | cons q rest ih =>
    by_cases hq : q.1 = k
    · have h2 : ¬ q.1 = k2 := by rw [hq]; exact fun hh => hne hh.symm
      simp [alookup, hq, Ne.symm hne, h2, ih]
    · by_cases hq2 : q.1 = k2
      · simp [alookup, hq, hq2, hne]
      · simp [alookup, hq, hq2, ih]

lemma alookup_append_single {m : List (String × String)} {k v : String} :
    alookup m k = none → alookup (m ++ [(k, v)]) k = some v := by
  induction m with
  | nil =>
    intro _
    simp [alookup]
  | cons q rest ih =>
    intro h
    simp only [alookup] at h
    by_cases hq : q.1 = k
    · rw [if_pos hq] at h
      cases h
    · rw [if_neg hq] at h
      simp [alookup, hq, ih h]

lemma alookup_append_single_other {m : List (String × String)} {k k2 v : String}
    (hne : k2 ≠ k) : alookup (m ++ [(k, v)]) k2 = alookup m k2 := by
  induction m with
  | nil => simp [alookup, Ne.symm hne]
  | cons q rest ih =>
    by_cases hq : q.1 = k2
    · simp [alookup, hq]
    · simp [alookup, hq, ih]

lemma alookup_insert_self (m : List (String × String)) (k v : String) :
    alookup (hashMapInsert m k v) k = some v := by
  unfold hashMapInsert
  cases h : m.any (fun p => p.1 == k) with
  | true => simpa [h] using alookup_subst_self h
  | false => simpa [h] using alookup_append_single (alookup_of_any_false h)

lemma alookup_insert_other (m : List (String × String)) (k k2 v : String)
    (hne : k2 ≠ k) : alookup (hashMapInsert m k v) k2 = alookup m k2 := by
  unfold hashMapInsert
  cases h : m.any (fun p => p.1 == k) with
  | true => simpa [h] using alookup_subst_other hne
  | false => simpa [h] using alookup_append_single_other hne

lemma mergedEnvMap_cons (d : List (String × String)) (p : String × String)
    (rest : List (String × String)) :
    mergedEnvMap d (p :: rest) = mergedEnvMap (hashMapInsert d p.1 p.2) rest := rfl

lemma mergedEnvMap_not_mem (o : List (String × String)) :
    ∀ (d : List (String × String)) (k : String), k ∉ o.map Prod.fst →
      alookup (mergedEnvMap d o) k = alookup d k := by
  induction o with
  | nil => intro d k _; rfl
  | cons p rest ih =>
    intro d k hk
    rw [List.map_cons, List.mem_cons] at hk
    push_neg at hk
    rw [mergedEnvMap_cons]
    rw [ih (hashMapInsert d p.1 p.2) k hk.2]
    exact alookup_insert_other d p.1 k p.2 hk.1

lemma mergedEnvMap_mem (o : List (String × String)) :
    ∀ (d : List (String × String)) (k v : String), (k, v) ∈ o →
      (o.map Prod.fst).Nodup → alookup (mergedEnvMap d o) k = some v := by
  induction o with
  | nil => intro d k v h _; simp at h
  | cons p rest ih =>
    intro d k v hmem hnd
    rw [List.map_cons, List.nodup_cons] at hnd
    rw [mergedEnvMap_cons]
    rcases List.mem_cons.mp hmem with rfl | h
    · rw [mergedEnvMap_not_mem rest (hashMapInsert d (k, v).1 (k, v).2) k
        (by simpa using hnd.1)]
      exact alookup_insert_self d k v
    · exact ih (hashMapInsert d p.1 p.2) k v h hnd.2

end MergeEnvVars

/-- C3: merging an optional override map into a default map gives every
override key the override's value (existing defaults replaced, new keys
added), leaves every key not mentioned by the overrides at its default value,
and with no overrides returns exactly the formatted defaults. -/
theorem C3_merge_env_vars (d o : List (String × String))
    (hnd : (o.map Prod.fst).Nodup) :
    (∀ k v, (k, v) ∈ o → alookup (mergedEnvMap d o) k = some v) ∧
    (∀ k, k ∉ o.map Prod.fst → alookup (mergedEnvMap d o) k = alookup d k) ∧
    merge_env_vars d (some o) = (mergedEnvMap d o).map (fun p => p.1 ++ "=" ++ p.2) ∧
    merge_env_vars d none = d.map (fun p => p.1 ++ "=" ++ p.2) := by
  refine ⟨fun k v h => mergedEnvMap_mem o d k v h hnd,
          fun k h => mergedEnvMap_not_mem o d k h, rfl, rfl⟩

/-- Witness for C3 at the example of the spec: defaults A=1, B=2 with
overrides B=9, C=3 merge to A=1, B=9, C=3. -/
theorem C3_merge_env_vars_witness :
    alookup (mergedEnvMap [("A", "1"), ("B", "2")] [("B", "9"), ("C", "3")]) "B" = some "9" ∧
    alookup (mergedEnvMap [("A", "1"), ("B", "2")] [("B", "9"), ("C", "3")]) "C" = some "3" ∧
    alookup (mergedEnvMap [("A", "1"), ("B", "2")] [("B", "9"), ("C", "3")]) "A" = some "1" ∧
    merge_env_vars [("A", "1"), ("B", "2")] none = ["A=1", "B=2"] := by
  have h := C3_merge_env_vars [("A", "1"), ("B", "2")] [("B", "9"), ("C", "3")] (by decide)
  refine ⟨h.1 "B" "9" (by decide), h.1 "C" "3" (by decide), ?_, ?_⟩
  · have hA := h.2.1 "A" (by decide)
    rw [hA]
    rfl
  · rw [h.2.2.2]
    rfl

/-- Engine-side record of one container: its reported state string, its label
map and the networks it is attached to. Docker's optional label map is
modelled as a possibly-empty list. -/
structure ContainerRec where
  state : String
  labels : List (String × String)
  networks : List String
  deriving DecidableEq, Repr

/-- InstanceData record, from wpdev_core/src/docker/instance.rs lines 26-35. -/
structure InstanceData where
  admin_user : String
  admin_password : String
  admin_email : String
  site_title : String
  site_url : String
  adminer_url : String
  adminer_user : String
  adminer_password : String
  deriving DecidableEq, Repr

/-- One call issued to the container engine, recorded so call counts can be
observed. -/
inductive EngineCall
  | inspectC (id : String)
  | startC (id : String)
  | stopC (id : String)
  | restartC (id : String)
  | removeC (id : String)
  | createNet (name : String)
  | listNets
  | listConts
  deriving DecidableEq, Repr

/-- Engine error: either an HTTP-fault with a status code (shiplift's
DockerError::Fault, bollard's DockerResponseServerError) or another transport
error. -/
inductive DockerErr
  | fault (code : Nat)
  | other (msg : String)
  deriving DecidableEq, Repr

/-- Runtime outcome of the embedded Rust code: an ordinary error return
(anyhow::Error and friends) or a process panic (e.g. unwrap on an Err). -/
inductive RtError
  | err (msg : String)
  | panicked (msg : String)
  deriving DecidableEq, Repr

/-- The environment the orchestration core runs against: the engine's
containers and networks, the per-instance metadata files on disk, fault
injection for the engine (ids whose lifecycle calls fail, ids whose inspect
fails with a non-404 server error), and the log of engine calls issued so
far. -/
structure World where
  containers : List (String × ContainerRec)
  networks : List String
  files : List (String × InstanceData)
  opFail : List String
  inspectFail : List String
  log : List EngineCall
  deriving DecidableEq, Repr

def World.logCall (w : World) (c : EngineCall) : World :=
  { w with log := w.log ++ [c] }

/-- Engine inspect: 404 fault when the container is absent, a non-404 fault
for injected inspect failures, the container record otherwise. -/
def Engine.inspectContainer (w : World) (id : String) :
    Except DockerErr ContainerRec × World :=
  let w := w.logCall (EngineCall.inspectC id)
  if w.inspectFail.contains id then (Except.error (DockerErr.other "server error"), w)
  else
    match alookup w.containers id with
    | some cr => (Except.ok cr, w)
    | none => (Except.error (DockerErr.fault 404), w)

def World.setState (w : World) (id st : String) : World :=
  { w with containers :=
      w.containers.map (fun p => if p.1 = id then (p.1, { p.2 with state := st }) else p) }

/-- Engine start: fails for injected failures and for absent containers,
otherwise sets the container running. -/
def Engine.startContainer (w : World) (id : String) : Except DockerErr Unit × World :=
  let w := w.logCall (EngineCall.startC id)
  if w.opFail.contains id then (Except.error (DockerErr.other "engine failure"), w)
  else
    match alookup w.containers id with
    | some _ => (Except.ok (), w.setState id "running")
    | none => (Except.error (DockerErr.fault 404), w)

def Engine.stopContainer (w : World) (id : String) : Except DockerErr Unit × World :=
  let w := w.logCall (EngineCall.stopC id)
  if w.opFail.contains id then (Except.error (DockerErr.other "engine failure"), w)
  else
    match alookup w.containers id with
    | some _ => (Except.ok (), w.setState id "exited")
    | none => (Except.error (DockerErr.fault 404), w)

def Engine.restartContainer (w : World) (id : String) : Except DockerErr Unit × World :=
  let w := w.logCall (EngineCall.restartC id)
  if w.opFail.contains id then (Except.error (DockerErr.other "engine failure"), w)
  else
    match alookup w.containers id with
    | some _ => (Except.ok (), w.setState id "running")
    | none => (Except.error (DockerErr.fault 404), w)

def Engine.removeContainer (w : World) (id : String) : Except DockerErr Unit × World :=
  let w := w.logCall (EngineCall.removeC id)
  if w.opFail.contains id then (Except.error (DockerErr.other "engine failure"), w)
  else
    match alookup w.containers id with
    | some _ => (Except.ok (), { w with containers := aremove w.containers id })
    | none => (Except.error (DockerErr.fault 404), w)

def Engine.listNetworks (w : World) : List String × World :=
  (w.networks, w.logCall EngineCall.listNets)

/-- Engine network create: with checkDuplicate (bollard's check_duplicate) the
engine rejects an existing name; without it a second network with the same
name is created. -/
def Engine.createNetwork (w : World) (name : String) (checkDuplicate : Bool) :
    Except DockerErr Unit × World :=
  let w := w.logCall (EngineCall.createNet name)
  if checkDuplicate && w.networks.contains name then
    (Except.error (DockerErr.other "network with name already exists"), w)
  else (Except.ok (), { w with networks := w.networks ++ [name] })

def Engine.listContainers (w : World) : List (String × ContainerRec) × World :=
  (w.containers, w.logCall EngineCall.listConts)

/-- The engine-state-to-status mapping of InstanceContainer::get_status and of
Instance::list, from wpdev_core/src/docker/instance.rs lines 82-89 and
402-409. -/
def statusOfStateShiplift (s : String) : ContainerStatus :=
  match s with
  | "running" => ContainerStatus.Running
  | "exited" => ContainerStatus.Stopped
  | "paused" => ContainerStatus.Paused
  | "dead" => ContainerStatus.Dead
  | "restarting" => ContainerStatus.Restarting
  | _ => ContainerStatus.Unknown

/-- The engine-state-to-status mapping shared by fetch_container_status in
wpdev_core/src/docker_service.rs lines 536-540 and (over bollard's state enum)
InstanceContainer::get_status in wpdev_core/src/docker/container.rs lines
258-262. -/
def statusOfStateNarrow (s : String) : ContainerStatus :=
  match s with
  | "running" => ContainerStatus.Running
  | "exited" => ContainerStatus.Stopped
  | _ => ContainerStatus.Unknown

/-- InstanceContainer::get_status, from wpdev_core/src/docker/instance.rs
lines 76-98 (shiplift): a 404 inspect fault becomes Ok(None), any other
inspect error is propagated. -/
def InstanceContainer.get_status_shiplift (w : World) (container_id : String) :
    Except DockerErr (Option ContainerStatus) × World :=
  match Engine.inspectContainer w container_id with
  | (Except.ok info, w) => (Except.ok (some (statusOfStateShiplift info.state)), w)
  | (Except.error (DockerErr.fault 404), w) => (Except.ok none, w)
  | (Except.error e, w) => (Except.error e, w)

/-- fetch_container_status, from wpdev_core/src/docker_service.rs lines
530-548: same 404 handling, narrower state mapping. -/
def fetch_container_status (w : World) (container_id : String) :
    Except DockerErr (Option ContainerStatus) × World :=
  match Engine.inspectContainer w container_id with
  | (Except.ok info, w) => (Except.ok (some (statusOfStateNarrow info.state)), w)
  | (Except.error (DockerErr.fault 404), w) => (Except.ok none, w)
  | (Except.error e, w) => (Except.error e, w)

/-- InstanceContainer::get_status, from wpdev_core/src/docker/container.rs
lines 250-264 (bollard): every inspect error, the 404 not-found case included,
is propagated with the context message. -/
def InstanceContainer.get_status (w : World) (container_id : String) :
    Except RtError ContainerStatus × World :=
  match Engine.inspectContainer w container_id with
  | (Except.ok info, w) => (Except.ok (statusOfStateNarrow info.state), w)
  | (Except.error _, w) => (Except.error (RtError.err "Failed to inspect container"), w)

/-- handle_container, from wpdev_core/src/docker/container.rs lines 317-398:
inspect, fetch the status (a second inspect), read the image label, then
dispatch the operation. start skips when already Running, stop skips when not
Running, restart is issued unconditionally, delete stops a Running container
first and then removes it. The returned InstanceContainer carries the status
observed before the operation. -/
def handle_container (w : World) (container_id : String)
    (operation : ContainerOperation) : Except RtError InstanceContainer × World :=
  match Engine.inspectContainer w container_id with
  | (Except.error _, w) => (Except.error (RtError.err "container inspect error"), w)
  | (Except.ok info, w) =>
    match InstanceContainer.get_status w container_id with
    | (Except.error _, w) => (Except.error (RtError.err "Failed to get container status"), w)
    | (Except.ok container_status, w) =>
      let container_image_label := (alookup info.labels "image").getD "Unknown"
      let proceed : Except RtError Unit × World :=
        match operation with
        | ContainerOperation.Start =>
          if container_status != ContainerStatus.Running then
            match Engine.startContainer w container_id with
            | (Except.ok _, w) => (Except.ok (), w)
            | (Except.error _, w) => (Except.error (RtError.err "engine error"), w)
          else (Except.ok (), w)
        | ContainerOperation.Stop =>
          if container_status == ContainerStatus.Running then
            match Engine.stopContainer w container_id with
            | (Except.ok _, w) => (Except.ok (), w)
            | (Except.error _, w) => (Except.error (RtError.err "engine error"), w)
          else (Except.ok (), w)
        | ContainerOperation.Restart =>
          match Engine.restartContainer w container_id with
          | (Except.ok _, w) => (Except.ok (), w)
          | (Except.error _, w) => (Except.error (RtError.err "engine error"), w)
        | ContainerOperation.Delete =>
          match (if container_status == ContainerStatus.Running then
                   Engine.stopContainer w container_id
                 else (Except.ok (), w)) with
          | (Except.error _, w) => (Except.error (RtError.err "engine error"), w)
          | (Except.ok _, w) =>
            match Engine.removeContainer w container_id with
            | (Except.ok _, w) => (Except.ok (), w)
            | (Except.error _, w) => (Except.error (RtError.err "engine error"), w)
        | ContainerOperation.Inspect => (Except.ok (), w)
      match proceed with
      | (Except.error e, w) => (Except.error e, w)
      | (Except.ok _, w) =>
        (Except.ok
          { container_id := container_id,
            container_image := ContainerImage.from_str container_image_label,
            container_status := container_status }, w)

/-- Model of Rust's str::parse::<u32>: an optional leading plus sign, then at
least one decimal digit, rejecting values above the u32 maximum. -/
def parseU32 (s : String) : Option Nat :=
  let cs := match s.data with
    | '+' :: rest => rest
    | cs => cs
  if cs.isEmpty then none
  else if cs.all Char.isDigit then
    let n := cs.foldl (fun acc c => acc * 10 + (c.toNat - 48)) 0
    if n < 4294967296 then some n else none
  else none

/-- utils::parse_port, from wpdev_core/src/utils.rs lines 88-94: parse the
optional label, defaulting to 0 on a missing or unparsable value, and always
return Ok. -/
def parse_port (port_label : Option String) : Except RtError Nat :=
  Except.ok ((port_label.bind parseU32).getD 0)

/-- Instance record, from wpdev_core/src/docker/instance.rs lines 15-23. -/
structure Instance where
  uuid : String
  status : InstanceStatus
  containers : List (String × InstanceContainer)
  nginx_port : Nat
  adminer_port : Nat
  wordpress_data : Option InstanceData
  deriving DecidableEq, Repr

/-- Instance::default, from wpdev_core/src/docker/instance.rs lines 194-224:
read the instance.toml metadata (an error when the file is missing or does not
parse), parse the two port labels, and build an Instance with no containers
and the default Unknown status. -/
def Instance.defaultOf (w : World) (instance_label : String)
    (labels : List (String × String)) : Except RtError Instance :=
  match alookup w.files instance_label with
  | none => Except.error (RtError.err "Instance file not found")
  | some instance_data =>
    match parse_port (alookup labels "nginx_port"),
          parse_port (alookup labels "adminer_port") with
    | Except.ok nginx_port, Except.ok adminer_port =>
      Except.ok
        { uuid := instance_label, status := InstanceStatus.Unknown, containers := [],
          nginx_port := nginx_port, adminer_port := adminer_port,
          wordpress_data := some instance_data }
    | Except.error e, _ => Except.error e
    | _, Except.error e => Except.error e

/-- The loop body of Instance::list, from wpdev_core/src/docker/instance.rs
lines 388-425: inspect each listed container (skipping it when the inspect
fails), keep those attached to the network and carrying an instance label,
build the entry's Instance via Instance::default — whose Result is unwrapped,
so a failed metadata read panics — and record the container with its inferred
image and the status taken from the list entry's state. -/
def Instance.listRec (network_name : String) :
    World → List (String × ContainerRec) → List (String × Instance) →
    Except RtError (List (String × Instance)) × World
  | w, [], acc => (Except.ok acc, w)
  | w, (cid, c) :: rest, acc =>
    match Engine.inspectContainer w cid with
    | (Except.error _, w) => Instance.listRec network_name w rest acc
    | (Except.ok details, w) =>
      if details.networks.contains network_name then
        match alookup details.labels "instance" with
        | some instance_label =>
          match Instance.defaultOf w instance_label details.labels with
          | Except.error _ =>
            (Except.error (RtError.panicked "called unwrap on an Err value"), w)
          | Except.ok fresh =>
            let inst := (alookup acc instance_label).getD fresh
            let container_image := match alookup details.labels "image" with
              | some image => ContainerImage.from_str image
              | none => ContainerImage.Unknown
            let container_status := statusOfStateShiplift c.state
            let newContainer : InstanceContainer :=
              { container_id := cid, container_image := container_image,
                container_status := container_status }
            let inst2 := { inst with containers := aset inst.containers cid newContainer }
            Instance.listRec network_name w rest (aset acc instance_label inst2)
        | none => Instance.listRec network_name w rest acc
      else Instance.listRec network_name w rest acc

/-- Instance::list_all, from wpdev_core/src/docker/instance.rs lines 432-443:
list every container from the engine and group them into instances. -/
def Instance.list_all (w : World) (network_name : String) :
    Except RtError (List (String × Instance)) × World :=
  let (containers, w) := Engine.listContainers w
  Instance.listRec network_name w containers []

/-- The per-container operation loop of handle_instance, from
wpdev_core/src/docker/instance.rs lines 480-525: start only when not Running,
stop only when Running, restart only when Running, delete stops a Running
container first and always issues the removal, inspect re-inspects; any
engine error aborts the loop; deleted container ids are collected. -/
def applyOperation (operation : ContainerOperation) :
    World → List (String × InstanceContainer) → List String →
    Except RtError (List String) × World
  | w, [], deleted => (Except.ok deleted, w)
  | w, (container_id, c) :: rest, deleted =>
    match operation with
    | ContainerOperation.Start =>
      if c.container_status != ContainerStatus.Running then
        match Engine.startContainer w container_id with
        | (Except.ok _, w) => applyOperation operation w rest deleted
        | (Except.error _, w) => (Except.error (RtError.err "engine error"), w)
      else applyOperation operation w rest deleted
    | ContainerOperation.Stop =>
      if c.container_status == ContainerStatus.Running then
        match Engine.stopContainer w container_id with
        | (Except.ok _, w) => applyOperation operation w rest deleted
        | (Except.error _, w) => (Except.error (RtError.err "engine error"), w)
      else applyOperation operation w rest deleted
    | ContainerOperation.Restart =>
      if c.container_status == ContainerStatus.Running then
        match Engine.restartContainer w container_id with
        | (Except.ok _, w) => applyOperation operation w rest deleted
        | (Except.error _, w) => (Except.error (RtError.err "engine error"), w)
      else applyOperation operation w rest deleted
    | ContainerOperation.Delete =>
      match (if c.container_status == ContainerStatus.Running then
               Engine.stopContainer w container_id
             else (Except.ok (), w)) with
      | (Except.error _, w) => (Except.error (RtError.err "engine error"), w)
      | (Except.ok _, w) =>
        match Engine.removeContainer w container_id with
        | (Except.error _, w) => (Except.error (RtError.err "engine error"), w)
        | (Except.ok _, w) => applyOperation operation w rest (deleted ++ [container_id])
    | ContainerOperation.Inspect =>
      match Engine.inspectContainer w container_id with
      | (Except.ok _, w) => applyOperation operation w rest deleted
      | (Except.error _, w) => (Except.error (RtError.err "engine error"), w)

/-- handle_instance, from wpdev_core/src/docker/instance.rs lines 470-539:
list all instances, find the target by uuid (an error when absent), run the
operation over its containers, drop the deleted ones and recompute the
aggregate status. -/
def handle_instance (w : World) (network_name instance_uuid : String)
    (operation : ContainerOperation) : Except RtError Instance × World :=
  match Instance.list_all w network_name with
  | (Except.error e, w) => (Except.error e, w)
  | (Except.ok instances, w) =>
    match alookup instances instance_uuid with
    | some inst =>
      match applyOperation operation w inst.containers [] with
      | (Except.error e, w) => (Except.error e, w)
      | (Except.ok deleted, w) =>
        let containers := deleted.foldl (fun cs cid => aremove cs cid) inst.containers
        (Except.ok
          { inst with containers := containers,
                      status := Instance.get_status containers }, w)
    | none =>
      (Except.error
        (RtError.err ("Instance with UUID " ++ instance_uuid ++ " not found")), w)

/-- The loop of handle_all_instances: each instance is handled in turn and the
question-mark operator propagates the first failure. -/
def handleAllRec (network_name : String) (operation : ContainerOperation) :
    World → List String → List Instance → Except RtError (List Instance) × World
  | w, [], acc => (Except.ok acc, w)
  | w, uuid :: rest, acc =>
    match handle_instance w network_name uuid operation with
    | (Except.error e, w) => (Except.error e, w)
    | (Except.ok inst, w) => handleAllRec network_name operation w rest (acc ++ [inst])

/-- handle_all_instances, from wpdev_core/src/docker/instance.rs lines
541-562: list all instances and handle each uuid, aborting at the first
failing instance. -/
def handle_all_instances (w : World) (network_name : String)
    (operation : ContainerOperation) : Except RtError (List Instance) × World :=
  match Instance.list_all w network_name with
  | (Except.error e, w) => (Except.error e, w)
  | (Except.ok instances, w) =>
    handleAllRec network_name operation w (instances.map Prod.fst) []

/-- create_network_if_not_exists, from wpdev_core/src/config.rs lines 142-160
(bollard): derive the network name and unconditionally issue the engine
create-network call with check_duplicate set, contexting any failure. -/
def create_network_if_not_exists_core (w : World) (networkBase id : String) :
    Except RtError Unit × World :=
  let network_name := networkBase ++ "-" ++ id
  match Engine.createNetwork w network_name true with
  | (Except.ok _, w) => (Except.ok (), w)
  | (Except.error _, w) => (Except.error (RtError.err "Failed to create network"), w)

/-- create_network_if_not_exists, from src/src/docker/manager.rs lines 101-126
(shiplift): list networks and skip when the name exists; otherwise issue the
create call, and then issue it a second time inside the match that inspects
its result. -/
def create_network_if_not_exists_manager (w : World) (network_name : String) :
    Except DockerErr Unit × World :=
  let (networks, w) := Engine.listNetworks w
  if networks.contains network_name then (Except.ok (), w)
  else
    match Engine.createNetwork w network_name false with
    | (Except.error e, w) => (Except.error e, w)
    | (Except.ok _, w) =>
      match Engine.createNetwork w network_name false with
      | (Except.ok _, w) => (Except.ok (), w)
      | (Except.error e, w) => (Except.error e, w)

/-- A metadata record used by the concrete test worlds. -/
def dData : InstanceData := ⟨"u", "p", "e", "t", "s", "a", "au", "ap"⟩

/-- A world with no containers, networks or files. -/
def emptyWorld : World := ⟨[], [], [], [], [], []⟩

/-- A running container of instance a on network net. -/
def crA : ContainerRec := ⟨"running", [("instance", "a")], ["net"]⟩

/-- A running container of instance b on network net. -/
def crB : ContainerRec := ⟨"running", [("instance", "b")], ["net"]⟩

/-- A running container of instance c on network net. -/
def crC : ContainerRec := ⟨"running", [("instance", "c")], ["net"]⟩

/-- Two instances a and b with metadata on disk; instance b's container is
listed first and its lifecycle calls fail at the engine. -/
def w6 : World := ⟨[("cb", crB), ("ca", crA)], [], [("a", dData), ("b", dData)], ["cb"], [], []⟩

/-- Three instances a, b and c on the network, with metadata on disk for a and
b only: c's metadata file is missing. -/
def w7 : World :=
  ⟨[("ca", crA), ("cb", crB), ("cc", crC)], [], [("a", dData), ("b", dData)], [], [], []⟩

/-- A single container of instance x in the given engine state. -/
def crX (st : String) : ContainerRec := ⟨st, [("instance", "x")], ["net"]⟩

/-- A world whose single container c1 is running. -/
def w9r : World := ⟨[("c1", crX "running")], [], [("x", dData)], [], [], []⟩

/-- A world whose single container c1 has exited. -/
def w9s : World := ⟨[("c1", crX "exited")], [], [("x", dData)], [], [], []⟩

/-- A world holding only the metadata file of instance x. -/
def wMeta : World := ⟨[], [], [("x", dData)], [], [], []⟩

/-- C4, as stated, is false: deleting a container that is absent from the
engine returns an error, not success — handle_container begins by inspecting
the container and propagates the engine's not-found failure. -/
theorem C4_counterexample :
    (handle_container emptyWorld "c1" ContainerOperation.Delete).1 =
      Except.error (RtError.err "container inspect error") := rfl

/-- C4 amended: for every container id the engine does not know (and whose
inspect is not otherwise failing), the delete operation returns an error —
the initial inspect's not-found fault is propagated, so delete is not
idempotent over absence. -/
theorem C4_delete_absent_errors (w : World) (container_id : String)
    (habs : alookup w.containers container_id = none)
    (hins : w.inspectFail.contains container_id = false) :
    (handle_container w container_id ContainerOperation.Delete).1 =
      Except.error (RtError.err "container inspect error") := by
  have hmem : container_id ∉ w.inspectFail := by simpa using hins
  unfold handle_container Engine.inspectContainer
  simp [World.logCall, hmem, habs]

/-- Witness for C4 at the empty engine. -/
theorem C4_delete_absent_errors_witness :
    alookup emptyWorld.containers "c1" = none ∧
    (handle_container emptyWorld "c1" ContainerOperation.Delete).1 =
      Except.error (RtError.err "container inspect error") :=
  ⟨rfl, C4_delete_absent_errors emptyWorld "c1" rfl rfl⟩

/-- C5, as stated, is false for the bollard Container Adapter: its get_status
propagates the 404 inspect failure as an error instead of returning a
not-found result value. -/
theorem C5_counterexample :
    (InstanceContainer.get_status emptyWorld "c1").1 =
      Except.error (RtError.err "Failed to inspect container") := rfl

/-- C5 amended: the shiplift status queries (InstanceContainer::get_status in
instance.rs and fetch_container_status in docker_service.rs) map a 404
inspect fault to Ok(None) and propagate every other engine error, while the
bollard InstanceContainer::get_status in container.rs propagates every
inspect error, the not-found case included. -/
theorem C5_get_status_not_found (w : World) (container_id : String)
    (habs : alookup w.containers container_id = none)
    (hins : w.inspectFail.contains container_id = false) :
    (InstanceContainer.get_status_shiplift w container_id).1 = Except.ok none ∧
    (fetch_container_status w container_id).1 = Except.ok none ∧
    (InstanceContainer.get_status w container_id).1 =
      Except.error (RtError.err "Failed to inspect container") ∧
    (∀ (v : World) (id2 : String), v.inspectFail.contains id2 = true →
      (InstanceContainer.get_status_shiplift v id2).1 =
        Except.error (DockerErr.other "server error") ∧
      (fetch_container_status v id2).1 =
        Except.error (DockerErr.other "server error")) := by
  have hmem : container_id ∉ w.inspectFail := by simpa using hins
  refine ⟨?_, ?_, ?_, ?_⟩
  · unfold InstanceContainer.get_status_shiplift Engine.inspectContainer
    simp [World.logCall, hmem, habs]
  · unfold fetch_container_status Engine.inspectContainer
    simp [World.logCall, hmem, habs]
  · unfold InstanceContainer.get_status Engine.inspectContainer
    simp [World.logCall, hmem, habs]
  · intro v id2 h
    have hmem2 : id2 ∈ v.inspectFail := by simpa using h
    constructor
    · unfold InstanceContainer.get_status_shiplift Engine.inspectContainer
      simp [World.logCall, hmem2]
    · unfold fetch_container_status Engine.inspectContainer
      simp [World.logCall, hmem2]

/-- Witness for C5 at the empty engine. -/
theorem C5_get_status_not_found_witness :
    (InstanceContainer.get_status_shiplift emptyWorld "c1").1 = Except.ok none ∧
    (fetch_container_status emptyWorld "c1").1 = Except.ok none :=
  ⟨(C5_get_status_not_found emptyWorld "c1" rfl rfl).1,
   (C5_get_status_not_found emptyWorld "c1" rfl rfl).2.1⟩

/-- C6, as stated, is false: with two discovered instances where the first
processed one fails, the fan-out returns a single error instead of a
per-instance report. -/
theorem C6_counterexample :
    (handle_all_instances w6 "net" ContainerOperation.Stop).1 =
      Except.error (RtError.err "engine error") := rfl

/-- C6 amended: handle_all_instances propagates the first per-instance
failure. At w6 both instances b and a are discovered (in that order), the
stop on b's container fails, the bulk call returns that single error, and
instance a's container never receives a stop call. -/
theorem C6_abort_on_first_failure :
    (Instance.list_all w6 "net").1.toOption.map (fun l => l.map Prod.fst) =
      some ["b", "a"] ∧
    (handle_all_instances w6 "net" ContainerOperation.Stop).1 =
      Except.error (RtError.err "engine error") ∧
    (handle_all_instances w6 "net" ContainerOperation.Stop).2.log.count
      (EngineCall.stopC "ca") = 0 :=
  ⟨rfl, rfl, rfl⟩

/-- C7: listing with a broken metadata file does not skip the broken entry —
Instance::list unwraps the Result of Instance::default, so the whole listing
panics. This theorem evaluates the code at the failing input: three instances
on the network, metadata missing for instance c. -/
theorem C7_listing_panics_eval :
    alookup w7.files "c" = none ∧
    (Instance.list_all w7 "net").1 =
      Except.error (RtError.panicked "called unwrap on an Err value") :=
  ⟨rfl, rfl⟩

/-- C8, as stated, is false for the cited config.rs implementation: invoking
it twice issues two engine create-network calls and the second invocation
returns an error instead of silently skipping. -/
theorem C8_counterexample :
    (create_network_if_not_exists_core
        (create_network_if_not_exists_core emptyWorld "wp-network" "x").2
        "wp-network" "x").1 =
      Except.error (RtError.err "Failed to create network") ∧
    (create_network_if_not_exists_core
        (create_network_if_not_exists_core emptyWorld "wp-network" "x").2
        "wp-network" "x").2.log.count (EngineCall.createNet "wp-network-x") = 2 :=
  ⟨rfl, rfl⟩

/-- C8 amended: the config.rs create_network_if_not_exists issues an engine
create call on every invocation, delegating duplicate detection to the engine
— the first invocation succeeds with one create call and the second issues a
second create call and fails; the manager.rs version skips when the network
already exists but issues two create calls on the invocation that creates
it. -/
theorem C8_network_create_behavior :
    (create_network_if_not_exists_core emptyWorld "wp-network" "x").1 =
      Except.ok () ∧
    (create_network_if_not_exists_core emptyWorld "wp-network" "x").2.log.count
      (EngineCall.createNet "wp-network-x") = 1 ∧
    (create_network_if_not_exists_core
        (create_network_if_not_exists_core emptyWorld "wp-network" "x").2
        "wp-network" "x").1 =
      Except.error (RtError.err "Failed to create network") ∧
    (create_network_if_not_exists_core
        (create_network_if_not_exists_core emptyWorld "wp-network" "x").2
        "wp-network" "x").2.log.count (EngineCall.createNet "wp-network-x") = 2 ∧
    (create_network_if_not_exists_manager emptyWorld "net").1 = Except.ok () ∧
    (create_network_if_not_exists_manager emptyWorld "net").2.log.count
      (EngineCall.createNet "net") = 2 ∧
    (create_network_if_not_exists_manager
        (create_network_if_not_exists_manager emptyWorld "net").2 "net").1 =
      Except.ok () ∧
    (create_network_if_not_exists_manager
        (create_network_if_not_exists_manager emptyWorld "net").2 "net").2.log.count
      (EngineCall.createNet "net") = 2 :=
  ⟨rfl, rfl, rfl, rfl, rfl, rfl, rfl, rfl⟩

/-- C9, as stated, is false: on a container that is not Running the two
restart implementations issue different engine calls — handle_container
issues the restart, handle_instance does not. -/
theorem C9_counterexample :
    (handle_container w9s "c1" ContainerOperation.Restart).2.log.count
        (EngineCall.restartC "c1") ≠
    (handle_instance w9s "net" "x" ContainerOperation.Restart).2.log.count
        (EngineCall.restartC "c1") := by
  intro h
  simp only [show (handle_container w9s "c1" ContainerOperation.Restart).2.log.count
      (EngineCall.restartC "c1") = 1 from rfl,
    show (handle_instance w9s "net" "x" ContainerOperation.Restart).2.log.count
      (EngineCall.restartC "c1") = 0 from rfl] at h
  cases h

/-- C9 amended: the two restart implementations agree only on a Running
container. When the container is Running both issue exactly one engine
restart call; when it has exited, handle_container still issues the restart
while handle_instance skips it. -/
theorem C9_restart_policies_differ :
    (handle_container w9r "c1" ContainerOperation.Restart).2.log.count
      (EngineCall.restartC "c1") = 1 ∧
    (handle_instance w9r "net" "x" ContainerOperation.Restart).2.log.count
      (EngineCall.restartC "c1") = 1 ∧
    (handle_container w9s "c1" ContainerOperation.Restart).2.log.count
      (EngineCall.restartC "c1") = 1 ∧
    (handle_instance w9s "net" "x" ContainerOperation.Restart).2.log.count
      (EngineCall.restartC "c1") = 0 :=
  ⟨rfl, rfl, rfl, rfl⟩

/-- C10: utils::parse_port is total — it returns Ok for every input, the
parsed number when the label parses as a u32 and 0 otherwise — and
consequently building an Instance from labels whose port entries are missing
or malformed succeeds with both ports 0 (given the metadata file reads). -/
theorem C10_parse_port_total (w : World) (instance_label : String)
    (labels : List (String × String)) (d : InstanceData)
    (hfile : alookup w.files instance_label = some d)
    (hn : (alookup labels "nginx_port").bind parseU32 = none)
    (ha : (alookup labels "adminer_port").bind parseU32 = none) :
    (∀ s, ∃ n, parse_port s = Except.ok n) ∧
    (∀ str, parseU32 str = none → parse_port (some str) = Except.ok 0) ∧
    (∀ str n, parseU32 str = some n → parse_port (some str) = Except.ok n) ∧
    Instance.defaultOf w instance_label labels =
      Except.ok
        { uuid := instance_label, status := InstanceStatus.Unknown,
          containers := [], nginx_port := 0, adminer_port := 0,
          wordpress_data := some d } := by
  refine ⟨fun s => ⟨(s.bind parseU32).getD 0, rfl⟩, ?_, ?_, ?_⟩
  · intro str h
    simp [parse_port, h]
  · intro str n h
    simp [parse_port, h]
  · unfold Instance.defaultOf
    simp [hfile, parse_port, hn, ha]

/-- Witness for C10 at a malformed port label. -/
theorem C10_parse_port_total_witness :
    parse_port (some "oops") = Except.ok 0 ∧
    Instance.defaultOf wMeta "x" [("nginx_port", "oops")] =
      Except.ok
        { uuid := "x", status := InstanceStatus.Unknown, containers := [],
          nginx_port := 0, adminer_port := 0, wordpress_data := some dData } := by
  have h := C10_parse_port_total wMeta "x" [("nginx_port", "oops")] dData rfl rfl rfl
  exact ⟨h.2.1 "oops" rfl, h.2.2.2⟩

end Wpdev
